import Mathlib

/-!
Verification development for the VaporChat session protocol.

The JavaScript sources are shallowly embedded as Lean definitions:

* `Crypto`       — the mesh key store / encryption gateway (js/crypto.js, mesh variant);
* `LegacyCrypto` — the 1:1 legacy key store (src/js/crypto.js);
* `Net`          — the legacy single-connection network module (src/js/network.js);
* `Join`         — the joiner promise machine of `joinChannel` (src/js/network.js);
* top level      — the mesh session state machine (js/main.js, mesh variant).

JS `Map`s become association lists with JS `Map` semantics (`mget` reads the
first matching entry, `mset` replaces in place or appends, `mdel` removes the
key).  Side effects (UI calls, network sends, timers) become an explicit
`Effect` list returned by each handler together with the new state.
-/

set_option autoImplicit false

namespace VC

universe u

/-- First value stored under key `k` (JS `Map.get`, `undefined` as `none`). -/
def mget {α : Type u} : List (String × α) → String → Option α
  | [], _ => none
  | (k', v) :: rest, k => if k' = k then some v else mget rest k

/-- JS `Map.has`. -/
def mhas {α : Type u} (m : List (String × α)) (k : String) : Bool :=
  (mget m k).isSome

/-- JS `Map.set`: replace the value in place if the key exists, else append. -/
def mset {α : Type u} : List (String × α) → String → α → List (String × α)
  | [], k, v => [(k, v)]
  | (k', v') :: rest, k, v =>
    if k' = k then (k, v) :: rest else (k', v') :: mset rest k v

/-- JS `Map.delete`: remove every entry stored under `k`. -/
def mdel {α : Type u} : List (String × α) → String → List (String × α)
  | [], _ => []
  | (k', v') :: rest, k =>
    if k' = k then mdel rest k else (k', v') :: mdel rest k

theorem mget_mdel_self {α : Type u} (m : List (String × α)) (k : String) :
    mget (mdel m k) k = none := by
  induction m with
  | nil => rfl
  | cons hd tl ih =>
    obtain ⟨k', v'⟩ := hd
    by_cases h : k' = k
    · simpa [mdel, h] using ih
    · simp [mdel, mget, h, ih]

theorem mget_mset_self {α : Type u} (m : List (String × α)) (k : String) (v : α) :
    mget (mset m k v) k = some v := by
  induction m with
  | nil => simp [mset, mget]
  | cons hd tl ih =>
    obtain ⟨k', v'⟩ := hd
    by_cases h : k' = k
    · simp [mset, mget, h]
    · simp [mset, mget, h, ih]

theorem mget_mset_ne {α : Type u} (m : List (String × α)) (k k' : String) (v : α)
    (h : k ≠ k') : mget (mset m k v) k' = mget m k' := by
  induction m with
  | nil => simp [mset, mget, h]
  | cons hd tl ih =>
    obtain ⟨k0, v0⟩ := hd
    by_cases h0 : k0 = k
    · simp [mset, mget, h0, h]
    · simp [mset, mget, h0, ih]

theorem mget_mdel_ne {α : Type u} (m : List (String × α)) (k k' : String)
    (h : k ≠ k') : mget (mdel m k) k' = mget m k' := by
  induction m with
  | nil => rfl
  | cons hd tl ih =>
    obtain ⟨k0, v0⟩ := hd
    by_cases h0 : k0 = k
    · simp [mdel, mget, h0, h, ih]
    · by_cases h1 : k0 = k'
      · simp [mdel, mget, h0, h1, Ne.symm h]
      · simp [mdel, mget, h0, h1, ih]

/-! ## Wire messages, session data model and effects (mesh variant, js/main.js) -/

/-- The five screens / session states (`let state = "landing" | ...`). -/
inductive SessState where
  | landing
  | waiting
  | chat
  | destroyed
  | error
  deriving DecidableEq, Repr

/-- One entry of the `peers` map: `peerId → { codename, connected }`. -/
structure PeerInfo where
  codename : String
  connected : Bool
  deriving DecidableEq, Repr

/-- One element of a `peer_list` message payload. -/
structure PeerListEntry where
  peerId : String
  codename : String
  publicKey : Option String
  deriving DecidableEq, Repr

/-- Fields of a `key_exchange` message; `none` models a field that is absent
or not a string (the handler's `typeof` checks). -/
structure KXData where
  codename : Option String
  publicKey : Option String
  deriving DecidableEq, Repr

/-- Decrypted `file` payload metadata, as produced by `JSON.parse`;
`none` models a missing / non-string field. -/
structure FileMeta where
  fileName : Option String
  mimeType : Option String
  fileSize : Int
  data : Option String
  deriving DecidableEq, Repr

/-- Inbound/outbound wire messages, dispatched in `onData` by their `type`
tag.  `unknownType` stands for any unrecognized tag (the switch default). -/
inductive WireMsg where
  | key_exchange (d : KXData)
  | chatMsg (payload : String) (senderPeerId : Option String)
  | fileMsg (payload : String) (senderPeerId : Option String)
  | close
  | clearMsg
  | ping (timestamp : Nat)
  | pong (timestamp : Nat)
  | peer_list (peers : List PeerListEntry)
  | peer_joined (peerId codename publicKey : String)
  | peer_left (peerId : String) (codename : Option String)
  | entry_closed
  | entry_opened
  | leave (codename : Option String)
  | unknownType (tag : String)
  deriving DecidableEq, Repr

/-- Observable side effects a handler emits: UI calls, network operations,
and `setTimeout(() => destroySession(), delay)` timers. -/
inductive Effect where
  | uiAppend (kind text : String)
  | uiAppendPeerMsg (text sender : String) (unverified : Bool)
  | uiAppendFile (meta : FileMeta) (sender : String) (unverified : Bool)
  | uiClearMessages
  | uiPurgeMessages
  | uiRefreshStatus
  | uiSetConnection (connected : Bool)
  | uiSetEntryStatus (entry : Bool)
  | uiSetEntryClickable (clickable : Bool)
  | uiSetInput (enabled : Bool)
  | uiShowScreen (s : SessState)
  | netSendTo (peerId : String) (msg : WireMsg)
  | netBroadcast (msg : WireMsg) (exclude : Option String)
  | netConnectTo (peerId : String)
  | netCloseEntry
  | netOpenEntry
  | netDestroy
  | scheduleDestroy (delayMs : Nat)
  | addUnloadHandler
  | removeUnloadHandler
  deriving DecidableEq, Repr

/-- Recognizer for the grace-delayed teardown timer. -/
def isScheduleDestroy : Effect → Bool
  | .scheduleDestroy _ => true
  | _ => false

/-- Recognizer for a `peer_joined` broadcast. -/
def isPeerJoinedBroadcast : Effect → Bool
  | .netBroadcast (.peer_joined _ _ _) _ => true
  | _ => false

/-- Recognizer for the "`codename` has joined the channel." notification. -/
def isJoinNotification : Effect → Bool
  | .uiAppend kind text => kind = "system" && text.endsWith " has joined the channel."
  | _ => false

/-! ## Crypto collaborator outcomes

`openpgp.decrypt` is an external collaborator; its outcome on a given
ciphertext is passed in explicitly.  A signature object either verifies
(`valid`: the `await signatures[0].verified` promise resolves) or throws
(`invalid`). -/

inductive SigCheck where
  | valid
  | invalid
  deriving DecidableEq, Repr

/-- Outcome of `openpgp.decrypt`: either the whole call throws (`fail`,
e.g. wrong key / malformed message) or it yields the plaintext and the
list of signature objects. -/
inductive DecResult where
  | fail
  | ok (plaintext : String) (sigs : List SigCheck)
  deriving DecidableEq, Repr

/-- A session private key object; `fp` models `privateKey.getFingerprint()`. -/
structure PrivKey where
  material : String
  fp : String
  deriving DecidableEq, Repr

namespace Crypto

/-- Mesh key store (js/crypto.js, mesh variant): the session keypair and the
`peerKeys` map `peerId → armored key`. -/
structure Store where
  privateKey : Option PrivKey
  publicKeyArmored : Option String
  peerKeys : List (String × String)
  deriving DecidableEq, Repr

/-- `importPeerKey(peerId, armoredKey)` — parse and store the peer key. -/
def importPeerKey (c : Store) (peerId armored : String) : Store :=
  { c with peerKeys := VC.mset c.peerKeys peerId armored }

/-- `removePeerKey(peerId)` — idempotent delete. -/
def removePeerKey (c : Store) (peerId : String) : Store :=
  { c with peerKeys := VC.mdel c.peerKeys peerId }

/-- `getPeerArmoredKey(peerId)` — the armored key or `null`. -/
def getPeerArmoredKey (c : Store) (peerId : String) : Option String :=
  VC.mget c.peerKeys peerId

/-- `hasPeerKey(peerId)`. -/
def hasPeerKey (c : Store) (peerId : String) : Bool :=
  VC.mhas c.peerKeys peerId

/-- `getFingerprint()` — `null` when no private key is held. -/
def getFingerprint (c : Store) : Option String :=
  match c.privateKey with
  | none => none
  | some k => some k.fp.toUpper

/-- `purgeKeys()` — null out the keypair and clear the peer-key map. -/
def purgeKeys (_c : Store) : Store :=
  { privateKey := none, publicKeyArmored := none, peerKeys := [] }

/-- `decryptMessage(armored, senderPeerId)` of the mesh variant, applied to
the collaborator's outcome: `verified` starts `false`; if at least one
signature is present the first one is awaited, a throw is swallowed by the
`catch`; the decrypted plaintext is always returned once decryption
succeeded. -/
def decryptMessage (r : DecResult) : Except String (String × Bool) :=
  match r with
  | .fail => .error "Error decrypting message"
  | .ok txt sigs =>
    match sigs with
    | [] => .ok (txt, false)
    | s :: _ => .ok (txt, s = SigCheck.valid)

end Crypto

namespace LegacyCrypto

/-- `decryptMessage(armored)` of the legacy 1:1 variant (src/js/crypto.js):
after a successful decryption it awaits `signatures[0].verified` and turns
any signature failure (or absent signature: `signatures[0]` is `undefined`)
into a thrown `"Signature verification failed"` error. -/
def decryptMessage (r : DecResult) : Except String String :=
  match r with
  | .fail => .error "Error decrypting message"
  | .ok txt sigs =>
    match sigs with
    | [] => .error "Signature verification failed"
    | s :: _ =>
      if s = SigCheck.valid then .ok txt
      else .error "Signature verification failed"

end LegacyCrypto

/-! ## Mesh session state machine (js/main.js, mesh variant) -/

/-- The module-level mutable session variables. -/
structure Session where
  state : SessState
  selfCodename : Option String
  peers : List (String × PeerInfo)
  channelId : Option String
  shareLink : Option String
  isCreator : Bool
  entryOpen : Bool
  sessionStartTime : Option Nat
  pendingPings : List (String × Nat)
  deriving DecidableEq, Repr

/-- The session together with the crypto module's state. -/
structure World where
  sess : Session
  store : Crypto.Store
  deriving DecidableEq, Repr

/-- External inputs a handler may consult: the crypto collaborator's
decryption outcome per (payload, senderPeerId), `JSON.parse` on a decrypted
file payload, and `Date.now()`. -/
structure Oracles where
  dec : String → Option String → DecResult
  parse : String → Option FileMeta
  now : Nat

/-- `MAX_FILE_SIZE = 2 * 1024 * 1024` (2 MiB). -/
def MAX_FILE_SIZE : Nat := 2 * 1024 * 1024

/-- JS string coercion of the possibly-null `channelId`
(`"vaporchat-" + null` is `"vaporchat-null"`). -/
def jsChannelStr (s : Session) : String :=
  match s.channelId with
  | some c => c
  | none => "null"

/-- `isFromCreator(peerId)`: the sender equals the creator's derived
identifier `"vaporchat-" + channelId`. -/
def isFromCreator (w : World) (peerId : String) : Bool :=
  peerId = "vaporchat-" ++ jsChannelStr w.sess

/-- JS `x || d` on an optional string (`undefined` and `""` are falsy). -/
def jsOr (o : Option String) (d : String) : String :=
  match o with
  | some s => if s = "" then d else s
  | none => d

/-- `peerId || data.senderPeerId` — the sender identifier used for
decryption and display (`""` is falsy in JS). -/
def resolveSender (peerId : String) (senderPeerId : Option String) : Option String :=
  if peerId = "" then senderPeerId else some peerId

/-- `senderInfo ? senderInfo.codename : "Unknown"` with the preceding
`senderPeerId ? peers.get(senderPeerId) : null`. -/
def senderName (w : World) (sp : Option String) : String :=
  match sp with
  | none => "Unknown"
  | some p =>
    if p = "" then "Unknown"
    else
      match mget w.sess.peers p with
      | some pi => pi.codename
      | none => "Unknown"

/-- Verdict of the receive-side `file` payload validation in
`handleFileMessage`. -/
inductive FileVerdict where
  | accepted
  | rejectedData
  | rejectedSize
  | rejectedName
  deriving DecidableEq, Repr

/-- The three receive-side checks of `handleFileMessage`, in source order:
`data` must be a non-empty string; `data.length` must not exceed
`MAX_FILE_SIZE * 1.37` (for integer lengths the float comparison coincides
with the exact rational one, written here as `100 * len > 137 * MAX`);
`fileName` must be a non-empty string of at most 255 characters.
`fileSize` is not consulted. -/
def validateFileMeta (m : FileMeta) : FileVerdict :=
  match m.data with
  | none => .rejectedData
  | some d =>
    if d.length = 0 then .rejectedData
    else if 100 * d.length > 137 * MAX_FILE_SIZE then .rejectedSize
    else
      match m.fileName with
      | none => .rejectedName
      | some n =>
        if n.length = 0 ∨ n.length > 255 then .rejectedName
        else .accepted

/-- The sender-side pre-check of `sendFile`:
`if (file.size > MAX_FILE_SIZE) { reject locally }`. -/
def sendFileTooLarge (size : Nat) : Bool :=
  size > MAX_FILE_SIZE

/-- The `catch` branch of `handleKeyExchange`. -/
def kxFail (w : World) (msg : String) : World × List Effect :=
  (w, [.uiAppend "error" ("Key exchange failed: " ++ msg)])

/-- Body of `handleKeyExchange` after validation and the idempotence guard:
record the peer as connected, import its key, creator-side mesh
bootstrapping (`peer_list` to the newcomer, `peer_joined` broadcast), the
first-exchange transition to `chat`, and the join notification. -/
def kxProceed (o : Oracles) (w : World) (c k peerId : String) : World × List Effect :=
  let isNewPeer := !(mhas w.sess.peers peerId)
  let peers1 := mset w.sess.peers peerId ⟨c, true⟩
  let store1 := Crypto.importPeerKey w.store peerId k
  let creatorEffs :=
    if w.sess.isCreator && isNewPeer then
      let plist := peers1.filterMap (fun p =>
        if p.1 ≠ peerId && p.2.connected then
          some (PeerListEntry.mk p.1 p.2.codename (Crypto.getPeerArmoredKey store1 p.1))
        else none)
      (if plist.length > 0 then [Effect.netSendTo peerId (.peer_list plist)] else [])
        ++ [Effect.netBroadcast (.peer_joined peerId c k) (some peerId)]
    else []
  let sess1 := { w.sess with peers := peers1 }
  let transPair :=
    if sess1.state ≠ SessState.chat then
      ({ sess1 with sessionStartTime := some o.now, state := SessState.chat },
       [Effect.uiRefreshStatus, Effect.uiSetConnection true,
        Effect.uiShowScreen SessState.chat]
         ++ (if sess1.isCreator then [Effect.uiSetEntryClickable true] else [])
         ++ [Effect.uiAppend "crypto" "Key exchange complete. E2E encryption active.",
             Effect.uiSetInput true, Effect.addUnloadHandler])
    else (sess1, [Effect.uiRefreshStatus])
  let joinedEffs :=
    if isNewPeer then [Effect.uiAppend "system" (c ++ " has joined the channel.")]
    else []
  (⟨transPair.1, store1⟩, creatorEffs ++ transPair.2 ++ joinedEffs)

/-- `handleKeyExchange(data, peerId)`: validate the codename and public-key
envelope (a failure is caught and reported, nothing else happens), return
early when the peer is already `connected`, otherwise proceed. -/
def handleKeyExchange (o : Oracles) (w : World) (d : KXData) (peerId : String) :
    World × List Effect :=
  match d.codename with
  | none => kxFail w "Invalid codename received"
  | some c =>
    if c.length = 0 || c.length > 100 then kxFail w "Invalid codename received"
    else
      match d.publicKey with
      | none => kxFail w "Invalid public key format"
      | some k =>
        if !(k.startsWith "-----BEGIN PGP PUBLIC KEY BLOCK-----") then
          kxFail w "Invalid public key format"
        else if (mget w.sess.peers peerId).any (fun pi => pi.connected) then
          (w, [])
        else
          kxProceed o w c k peerId

/-- Warning appended under an unverified chat message. -/
def chatTamperWarning : String :=
  "WARNING: Signature verification failed for the above message. It may have been tampered with or sent by an impersonator."

/-- Warning appended under an unverified file. -/
def fileTamperWarning : String :=
  "WARNING: Signature verification failed for the above file. It may have been tampered with or sent by an impersonator."

/-- `handleChatMessage(data, peerId)`: decrypt keyed by the resolved sender;
render the plaintext (flagged when unverified) plus a tamper warning, or
report a decryption failure. -/
def handleChatMessage (o : Oracles) (w : World) (payload : String)
    (senderPeerId : Option String) (peerId : String) : World × List Effect :=
  let sp := resolveSender peerId senderPeerId
  match Crypto.decryptMessage (o.dec payload sp) with
  | .error m => (w, [.uiAppend "error" ("Failed to decrypt message: " ++ m)])
  | .ok (txt, verified) =>
    (w, [Effect.uiAppendPeerMsg txt (senderName w sp) (!verified)]
          ++ (if !verified then [Effect.uiAppend "error" chatTamperWarning] else []))

/-- `handleFileMessage(data, peerId)`: decrypt, `JSON.parse`, validate the
metadata (`validateFileMeta`), then render or reject with a visible
reason. -/
def handleFileMessage (o : Oracles) (w : World) (payload : String)
    (senderPeerId : Option String) (peerId : String) : World × List Effect :=
  let sp := resolveSender peerId senderPeerId
  match Crypto.decryptMessage (o.dec payload sp) with
  | .error m => (w, [.uiAppend "error" ("Failed to decrypt file: " ++ m)])
  | .ok (txt, verified) =>
    match o.parse txt with
    | none => (w, [.uiAppend "error" "Failed to decrypt file: JSON parse error"])
    | some meta =>
      match validateFileMeta meta with
      | .rejectedData =>
        (w, [.uiAppend "error" "Rejected file: missing or invalid file data."])
      | .rejectedSize =>
        (w, [.uiAppend "error" "Rejected file: exceeds maximum allowed size (2 MB)."])
      | .rejectedName =>
        (w, [.uiAppend "error" "Rejected file: invalid file name."])
      | .accepted =>
        (w, [Effect.uiAppendFile meta (senderName w sp) (!verified)]
              ++ (if !verified then [Effect.uiAppend "error" fileTamperWarning] else []))

/-- `handlePong(data, peerId)`: report the RTT and clear the pending entry
only when a pending timestamp exists (JS truthiness: a `0` entry is falsy)
and strictly equals the pong's timestamp; otherwise do nothing.
`pongName` is the display name used for the report. -/
def pongName (w : World) (peerId : String) : String :=
  match mget w.sess.peers peerId with
  | some pi => pi.codename
  | none => peerId

def handlePong (o : Oracles) (w : World) (timestamp : Nat) (peerId : String) :
    World × List Effect :=
  match mget w.sess.pendingPings peerId with
  | none => (w, [])
  | some pingTs =>
    if pingTs ≠ 0 ∧ timestamp = pingTs then
      ({ w with sess :=
          { w.sess with pendingPings := mdel w.sess.pendingPings peerId } },
       [Effect.uiAppend "system"
          ("Pong from " ++ pongName w peerId ++ ": "
            ++ toString (o.now - pingTs) ++ "ms RTT")])
    else (w, [])

/-- `handleRemoteClose(peerId)`: announce, disable input, and schedule the
grace-delayed local teardown. -/
def handleRemoteClose (w : World) (peerId : String) : World × List Effect :=
  let name :=
    match mget w.sess.peers peerId with
    | some pi => pi.codename
    | none => "Peer"
  (w, [Effect.uiAppend "system" (name ++ " closed the channel."),
       Effect.uiSetInput false, Effect.uiSetConnection false,
       Effect.scheduleDestroy 1500])

/-- `handleEntryClosed()`: mirror the creator's gating flag. -/
def handleEntryClosed (w : World) : World × List Effect :=
  ({ w with sess := { w.sess with entryOpen := false } },
   [Effect.netCloseEntry, Effect.uiSetEntryStatus false,
    Effect.uiAppend "system" "Entry has been closed. No new peers can join."])

/-- `handleEntryOpened()`. -/
def handleEntryOpened (w : World) : World × List Effect :=
  ({ w with sess := { w.sess with entryOpen := true } },
   [Effect.netOpenEntry, Effect.uiSetEntryStatus true,
    Effect.uiAppend "system" "Entry has been reopened. New peers can join."])

/-- `handlePeerLeft(data)`: remove the peer and its key (creator-relayed
departure). -/
def handlePeerLeft (w : World) (pid : String) (cn : Option String) :
    World × List Effect :=
  let name :=
    match mget w.sess.peers pid with
    | some pi => pi.codename
    | none => jsOr cn "undefined"
  ({ w with sess := { w.sess with peers := mdel w.sess.peers pid },
            store := Crypto.removePeerKey w.store pid },
   [Effect.uiRefreshStatus,
    Effect.uiAppend "system" (name ++ " has left the channel.")])

/-- `handlePeerLeave(data, peerId)`: a directly announced departure while in
`chat`; the creator re-broadcasts `peer_left`; a non-creator left with zero
peers schedules its own teardown. -/
def handlePeerLeave (w : World) (cn : Option String) (peerId : String) :
    World × List Effect :=
  if w.sess.state ≠ SessState.chat then (w, [])
  else
    let name :=
      match mget w.sess.peers peerId with
      | some pi => pi.codename
      | none => jsOr cn "Peer"
    let peers1 := mdel w.sess.peers peerId
    let w1 := { w with sess := { w.sess with peers := peers1 },
                       store := Crypto.removePeerKey w.store peerId }
    let effs1 := [Effect.uiRefreshStatus,
                  Effect.uiAppend "system" (name ++ " left the channel.")]
    let effs2 :=
      if w.sess.isCreator then
        [Effect.netBroadcast (.peer_left peerId (some name)) none]
      else []
    let effs3 :=
      if peers1.length = 0 && !w.sess.isCreator then
        [Effect.uiSetInput false, Effect.uiSetConnection false,
         Effect.scheduleDestroy 1500]
      else if peers1.length = 0 && w.sess.isCreator then
        [Effect.uiSetConnection false]
      else []
    (w1, effs1 ++ effs2 ++ effs3)

/-- `onPeerDisconnect(peerId)`: losing the channel to a peer while in `chat`
removes it and its key; the creator re-broadcasts `peer_left`; a
non-creator whose peer count drops to zero schedules its teardown after the
1500 ms grace delay, while a creator merely shows itself disconnected. -/
def onPeerDisconnect (w : World) (peerId : String) : World × List Effect :=
  if w.sess.state ≠ SessState.chat then (w, [])
  else
    let name :=
      match mget w.sess.peers peerId with
      | some pi => pi.codename
      | none => "Peer"
    let peers1 := mdel w.sess.peers peerId
    let w1 := { w with sess := { w.sess with peers := peers1 },
                       store := Crypto.removePeerKey w.store peerId }
    let effs1 := [Effect.uiRefreshStatus,
                  Effect.uiAppend "system" (name ++ " disconnected.")]
    let effs2 :=
      if w.sess.isCreator then
        [Effect.netBroadcast (.peer_left peerId (some name)) none]
      else []
    let effs3 :=
      if peers1.length = 0 && !w.sess.isCreator then
        [Effect.uiSetInput false, Effect.uiSetConnection false,
         Effect.scheduleDestroy 1500]
      else if peers1.length = 0 && w.sess.isCreator then
        [Effect.uiSetConnection false]
      else []
    (w1, effs1 ++ effs2 ++ effs3)

/-- One iteration of the `handlePeerList` loop: record the peer as known but
not yet connected, import its key if new, and opportunistically connect. -/
def peerListStep (w : World) (p : PeerListEntry) : World × List Effect :=
  let peers1 :=
    if mhas w.sess.peers p.peerId then w.sess.peers
    else mset w.sess.peers p.peerId ⟨p.codename, false⟩
  let store1 :=
    if Crypto.hasPeerKey w.store p.peerId then w.store
    else
      match p.publicKey with
      | some k => Crypto.importPeerKey w.store p.peerId k
      | none => w.store
  ({ w with sess := { w.sess with peers := peers1 }, store := store1 },
   [Effect.netConnectTo p.peerId])

/-- `handlePeerList(data)`: fold `peerListStep` over the announced peers. -/
def handlePeerList (w : World) (ps : List PeerListEntry) : World × List Effect :=
  ps.foldl (fun acc p =>
    let r := peerListStep acc.1 p
    (r.1, acc.2 ++ r.2)) (w, [])

/-- `handlePeerJoined(data)`: pre-import the announced newcomer. -/
def handlePeerJoined (w : World) (pid cn pk : String) : World × List Effect :=
  let peers1 :=
    if mhas w.sess.peers pid then w.sess.peers
    else mset w.sess.peers pid ⟨cn, false⟩
  let store1 :=
    if Crypto.hasPeerKey w.store pid then w.store
    else Crypto.importPeerKey w.store pid pk
  ({ w with sess := { w.sess with peers := peers1 }, store := store1 }, [])

/-- `destroySession()`: guarded against double destruction; releases the
network, purges every key, clears all session maps and moves to
`destroyed`. -/
def destroySession (w : World) : World × List Effect :=
  if w.sess.state = SessState.destroyed then (w, [])
  else
    (⟨{ state := SessState.destroyed, selfCodename := none, peers := [],
        channelId := none, shareLink := none, isCreator := w.sess.isCreator,
        entryOpen := true, sessionStartTime := none, pendingPings := [] },
      Crypto.purgeKeys w.store⟩,
     [Effect.removeUnloadHandler, Effect.netDestroy, Effect.uiPurgeMessages,
      Effect.uiSetInput false, Effect.uiShowScreen SessState.destroyed])

/-- `onData(data, peerId)`: dispatch on the message `type`; `close`,
`peer_list`, `peer_joined`, `peer_left`, `entry_closed` and `entry_opened`
are honored only when the sender is the creator's derived identifier. -/
def onData (o : Oracles) (w : World) (msg : WireMsg) (peerId : String) :
    World × List Effect :=
  match msg with
  | .key_exchange d => handleKeyExchange o w d peerId
  | .chatMsg payload sp => handleChatMessage o w payload sp peerId
  | .fileMsg payload sp => handleFileMessage o w payload sp peerId
  | .close => if isFromCreator w peerId then handleRemoteClose w peerId else (w, [])
  | .clearMsg =>
    (w, [Effect.uiClearMessages, Effect.uiAppend "system" "Chat log cleared by peer."])
  | .ping ts => (w, [Effect.netSendTo peerId (.pong ts)])
  | .pong ts => handlePong o w ts peerId
  | .peer_list ps => if isFromCreator w peerId then handlePeerList w ps else (w, [])
  | .peer_joined pid cn pk =>
    if isFromCreator w peerId then handlePeerJoined w pid cn pk else (w, [])
  | .peer_left pid cn =>
    if isFromCreator w peerId then handlePeerLeft w pid cn else (w, [])
  | .entry_closed => if isFromCreator w peerId then handleEntryClosed w else (w, [])
  | .entry_opened => if isFromCreator w peerId then handleEntryOpened w else (w, [])
  | .leave cn => handlePeerLeave w cn peerId
  | .unknownType _ => (w, [])

/-! ## Network modules -/

namespace Net

/-- A PeerJS data connection; `isOpen` models `conn.open`. -/
structure DataConn where
  isOpen : Bool
  deriving DecidableEq, Repr

/-- Module state of the legacy network module (src/js/network.js):
a single connection handle or `null`. -/
structure NetState where
  conn : Option DataConn
  deriving DecidableEq, Repr

/-- `send(data)`: transmit only `if (conn && conn.open)`; otherwise the
message is silently dropped — no exception, no queuing, no state change.
The returned list holds what actually went on the wire. -/
def send (n : NetState) (d : WireMsg) : NetState × List WireMsg :=
  match n.conn with
  | some c => if c.isOpen then (n, [d]) else (n, [])
  | none => (n, [])

/-- Mesh Connection Registry state: `peerId → channel handle`. -/
structure Registry where
  chans : List (String × DataConn)
  deriving DecidableEq, Repr

/-- Modelled from the spec: the mesh variant's `sendTo(peerId, message)` is
part of the Connection Registry module that is not present under src (only
its callers in the mesh main module are).  Spec §4.2: best-effort, silently
drop if the target channel is not open (no queuing, no retry). -/
def sendTo (r : Registry) (peerId : String) (d : WireMsg) :
    Registry × List (String × WireMsg) :=
  match mget r.chans peerId with
  | some c => if c.isOpen then (r, [(peerId, d)]) else (r, [])
  | none => (r, [])

/-- Modelled from the spec: the mesh variant's
`broadcast(message, excludePeerId?)`, from the same missing Connection
Registry module.  Spec §4.2: best-effort delivery to every open channel
except the excluded peer, silently dropping closed channels. -/
def broadcast (r : Registry) (d : WireMsg) (exclude : Option String) :
    Registry × List (String × WireMsg) :=
  (r, r.chans.filterMap (fun pc =>
    if some pc.1 ≠ exclude ∧ pc.2.isOpen = true then some (pc.1, d) else none))

end Net

namespace Join

/-- The discrete events the `joinChannel` promise of src/js/network.js can
observe: the PeerJS `open` (signaling registration, after which
`peer.connect` creates the data channel), the data channel's `open`, a
connection or peer `error` (carrying `err.type`), the 20 s timeout firing,
and an inbound `key_exchange` arriving on the wired-up channel. -/
inductive Ev where
  | peerOpen
  | connOpen
  | connErr (typ : String)
  | peerErr (typ : String)
  | timeoutFire
  | recvKX
  deriving DecidableEq, Repr

/-- How the promise ended. -/
inductive Outcome where
  | pending
  | resolved
  | rejected (typ : String)
  deriving DecidableEq, Repr

/-- State of one `joinChannel` call: the `settled` flag, whether the data
channel has been created (`peer.on("open")` ran), the promise outcome,
whether the joiner's own `key_exchange` was sent (`onConnectionReady` runs
inside `setupConnection`, just before `resolve()`), and how many reciprocal
`key_exchange` messages have been received. -/
structure St where
  settled : Bool
  opened : Bool
  outcome : Outcome
  sentKX : Bool
  recvKXCount : Nat
  deriving DecidableEq, Repr

/-- The event handlers of `joinChannel`.  `conn.on("open")` checks
`settled` and then disconnects from signaling, wires the data handlers,
sends the joiner's `key_exchange` and resolves; every error path and the
timeout settle with a rejection; data (hence a reciprocal `key_exchange`)
can only arrive once `setupConnection` ran, i.e. after resolution. -/
def step (s : St) (e : Ev) : St :=
  match e with
  | .peerOpen => { s with opened := true }
  | .connOpen =>
    if s.opened && !s.settled then
      { s with settled := true, outcome := .resolved, sentKX := true }
    else s
  | .connErr t =>
    if s.opened && !s.settled then
      { s with settled := true, outcome := .rejected t }
    else s
  | .peerErr t =>
    if !s.settled then { s with settled := true, outcome := .rejected t } else s
  | .timeoutFire =>
    if !s.settled then
      { s with settled := true, outcome := .rejected "request-timeout" }
    else s
  | .recvKX =>
    if s.outcome = Outcome.resolved then
      { s with recvKXCount := s.recvKXCount + 1 }
    else s

/-- Initial state of a `joinChannel` call. -/
def init : St := ⟨false, false, .pending, false, 0⟩

/-- Run `joinChannel` against a sequence of events. -/
def run (evs : List Ev) : St := evs.foldl step init

/-- The joiner's error classification (`joinChannel` catch in js/main.js):
`err.type` is tested against `"peer-unavailable"`, then
`"request-timeout"`, and everything else is surfaced as a generic network
failure — exactly one bucket applies. -/
inductive ErrCat where
  | peerUnavailable
  | requestTimeout
  | networkOther
  deriving DecidableEq, Repr

/-- Classify a rejection's `err.type`. -/
def classifyJoinError (t : String) : ErrCat :=
  if t = "peer-unavailable" then .peerUnavailable
  else if t = "request-timeout" then .requestTimeout
  else .networkOther

end Join

/-! ## Sample data used by witness theorems -/

/-- Collaborator oracles for concrete evaluations. -/
def sampleOracles : Oracles :=
  ⟨fun _ _ => DecResult.fail, fun _ => none, 100⟩

/-- A joiner in `chat` with one connected peer and a pending ping. -/
def sampleWorld : World :=
  ⟨⟨SessState.chat, some "me", [("p1", ⟨"alice", true⟩)], some "chan", none,
    false, true, some 5, [("p1", 42)]⟩,
   ⟨some ⟨"k", "ab"⟩, some "pub", [("p1", "key1")]⟩⟩

/-! ## Claim theorems -/

/-- Under the duplicate-`key_exchange` guard (the sender is already recorded
as `connected`), `handleKeyExchange` either returns before doing anything or
reports a validation failure; in both branches the world is untouched. -/
theorem kx_connected_cases (o : Oracles) (w : World) (d : KXData) (peerId : String)
    (pi : PeerInfo) (hmem : mget w.sess.peers peerId = some pi)
    (hconn : pi.connected = true) :
    handleKeyExchange o w d peerId = (w, []) ∨
    ∃ m, handleKeyExchange o w d peerId =
      (w, [Effect.uiAppend "error" ("Key exchange failed: " ++ m)]) := by
  obtain ⟨cn, pk⟩ := d
  cases cn with
  | none => exact Or.inr ⟨"Invalid codename received", rfl⟩
  | some c =>
    by_cases hc : (c.length = 0 || c.length > 100) = true
    · exact Or.inr ⟨"Invalid codename received", by simp [handleKeyExchange, hc, kxFail]⟩
    · cases pk with
      | none =>
        exact Or.inr ⟨"Invalid public key format", by simp [handleKeyExchange, hc, kxFail]⟩
      | some k =>
        by_cases hk : k.startsWith "-----BEGIN PGP PUBLIC KEY BLOCK-----" = true
        · refine Or.inl ?_
          simp [handleKeyExchange, hc, hk, hmem, hconn]
        · exact Or.inr ⟨"Invalid public key format",
            by simp [handleKeyExchange, hc, hk, kxFail]⟩

/-- C1: a `close`, `entry_closed` or `entry_opened` wire message whose sender
identifier differs from the creator's derived identifier
`"vaporchat-" + channelId` is ignored by `onData`: the whole session state
(state enum, peers map, `entryOpen`, key store) is unchanged, and no
outbound message, UI change or teardown timer is emitted. -/
theorem vapor_C1_creator_authority (o : Oracles) (w : World) (peerId : String)
    (h : peerId ≠ "vaporchat-" ++ jsChannelStr w.sess) :
    onData o w WireMsg.close peerId = (w, []) ∧
    onData o w WireMsg.entry_closed peerId = (w, []) ∧
    onData o w WireMsg.entry_opened peerId = (w, []) := by
  have hfc : isFromCreator w peerId = false := by
    simp [isFromCreator, h]
  refine ⟨?_, ?_, ?_⟩ <;> simp [onData, hfc]

/-- C1 witness: a non-creator sender's `close` / `entry_closed` /
`entry_opened` are no-ops on a concrete session. -/
theorem vapor_C1_creator_authority_witness :
    ("p2" : String) ≠ "vaporchat-" ++ jsChannelStr sampleWorld.sess ∧
    (onData sampleOracles sampleWorld WireMsg.close "p2" = (sampleWorld, []) ∧
     onData sampleOracles sampleWorld WireMsg.entry_closed "p2" = (sampleWorld, []) ∧
     onData sampleOracles sampleWorld WireMsg.entry_opened "p2" = (sampleWorld, [])) :=
  ⟨by decide, vapor_C1_creator_authority sampleOracles sampleWorld "p2" (by decide)⟩

/-- C5: from any non-destroyed state, `destroySession` purges all key
material (`getFingerprint()` is `null`, the peer-key map is empty), clears
the peers and pending-ping maps, and moves the session to `destroyed`. -/
theorem vapor_C5_destroy_purges (w : World)
    (h : w.sess.state ≠ SessState.destroyed) :
    Crypto.getFingerprint (destroySession w).1.store = none ∧
    (destroySession w).1.store.peerKeys = [] ∧
    (destroySession w).1.sess.peers = [] ∧
    (destroySession w).1.sess.pendingPings = [] ∧
    (destroySession w).1.sess.state = SessState.destroyed := by
  simp [destroySession, h, Crypto.purgeKeys, Crypto.getFingerprint]

/-- C5 witness: destroying a concrete in-chat session leaves no key
material, no peers, no pending pings, and the `destroyed` state. -/
theorem vapor_C5_destroy_purges_witness :
    sampleWorld.sess.state ≠ SessState.destroyed ∧
    (Crypto.getFingerprint (destroySession sampleWorld).1.store = none ∧
     (destroySession sampleWorld).1.store.peerKeys = [] ∧
     (destroySession sampleWorld).1.sess.peers = [] ∧
     (destroySession sampleWorld).1.sess.pendingPings = [] ∧
     (destroySession sampleWorld).1.sess.state = SessState.destroyed) :=
  ⟨by decide, vapor_C5_destroy_purges sampleWorld (by decide)⟩

/-- C6: a duplicate `key_exchange` from a peer already recorded as
`connected` never emits the "has joined" notification and never
re-broadcasts `peer_joined`, in every session state. -/
theorem vapor_C6_duplicate_kx (o : Oracles) (w : World) (d : KXData)
    (peerId : String) (pi : PeerInfo)
    (hmem : mget w.sess.peers peerId = some pi) (hconn : pi.connected = true) :
    ∀ e ∈ (handleKeyExchange o w d peerId).2,
      isJoinNotification e = false ∧ isPeerJoinedBroadcast e = false := by
  intro e he
  rcases kx_connected_cases o w d peerId pi hmem hconn with hcase | ⟨m, hcase⟩
  · rw [hcase] at he
    simp at he
  · rw [hcase] at he
    simp at he
    subst he
    constructor
    · simp [isJoinNotification]
    · simp [isPeerJoinedBroadcast]

/-- C6 witness: a concrete duplicate `key_exchange` from connected peer
`"p1"` produces no join notification and no `peer_joined` broadcast. -/
theorem vapor_C6_duplicate_kx_witness :
    mget sampleWorld.sess.peers "p1" = some ⟨"alice", true⟩ ∧
    (∀ e ∈ (handleKeyExchange sampleOracles sampleWorld
        ⟨some "bob", some "-----BEGIN PGP PUBLIC KEY BLOCK-----data"⟩ "p1").2,
      isJoinNotification e = false ∧ isPeerJoinedBroadcast e = false) :=
  ⟨by decide,
   vapor_C6_duplicate_kx sampleOracles sampleWorld
     ⟨some "bob", some "-----BEGIN PGP PUBLIC KEY BLOCK-----data"⟩ "p1"
     ⟨"alice", true⟩ (by decide) rfl⟩

/-- C10: once a peer is recorded with `connected = true`, a later
`key_exchange` from the same identifier can neither alter the stored
codename nor replace the imported public key: the handler leaves the
peers map and the peer-key store exactly as they were, for every session
state and every message content. -/
theorem vapor_C10_no_key_replacement (o : Oracles) (w : World) (d : KXData)
    (peerId : String) (pi : PeerInfo)
    (hmem : mget w.sess.peers peerId = some pi) (hconn : pi.connected = true) :
    (handleKeyExchange o w d peerId).1.sess.peers = w.sess.peers ∧
    (handleKeyExchange o w d peerId).1.store.peerKeys = w.store.peerKeys ∧
    mget (handleKeyExchange o w d peerId).1.sess.peers peerId = some pi := by
  rcases kx_connected_cases o w d peerId pi hmem hconn with hcase | ⟨m, hcase⟩ <;>
    simp [hcase, hmem]

/-- C10 witness: a concrete `key_exchange` carrying a fresh codename and key
from already-connected `"p1"` changes neither its codename nor its key. -/
theorem vapor_C10_no_key_replacement_witness :
    mget sampleWorld.sess.peers "p1" = some ⟨"alice", true⟩ ∧
    ((handleKeyExchange sampleOracles sampleWorld
        ⟨some "mallory", some "-----BEGIN PGP PUBLIC KEY BLOCK-----evil"⟩ "p1").1.sess.peers
        = sampleWorld.sess.peers ∧
     (handleKeyExchange sampleOracles sampleWorld
        ⟨some "mallory", some "-----BEGIN PGP PUBLIC KEY BLOCK-----evil"⟩ "p1").1.store.peerKeys
        = sampleWorld.store.peerKeys ∧
     mget (handleKeyExchange sampleOracles sampleWorld
        ⟨some "mallory", some "-----BEGIN PGP PUBLIC KEY BLOCK-----evil"⟩ "p1").1.sess.peers "p1"
        = some ⟨"alice", true⟩) :=
  ⟨by decide,
   vapor_C10_no_key_replacement sampleOracles sampleWorld
     ⟨some "mallory", some "-----BEGIN PGP PUBLIC KEY BLOCK-----evil"⟩ "p1"
     ⟨"alice", true⟩ (by decide) rfl⟩

/-- C7: when the channel to a peer closes while the session is in `chat`,
that peer and its key are removed; a non-creator whose peer count drops to
zero schedules self-destruction after the 1500 ms grace delay; a creator
with entry open and zero remaining peers schedules no teardown and stays in
`chat`. -/
theorem vapor_C7_disconnect (w : World) (peerId : String)
    (hchat : w.sess.state = SessState.chat) :
    mget (onPeerDisconnect w peerId).1.sess.peers peerId = none ∧
    mget (onPeerDisconnect w peerId).1.store.peerKeys peerId = none ∧
    (w.sess.isCreator = false → (onPeerDisconnect w peerId).1.sess.peers.length = 0 →
      Effect.scheduleDestroy 1500 ∈ (onPeerDisconnect w peerId).2) ∧
    (w.sess.isCreator = true → w.sess.entryOpen = true →
      (∀ e ∈ (onPeerDisconnect w peerId).2, isScheduleDestroy e = false) ∧
      (onPeerDisconnect w peerId).1.sess.state = SessState.chat) := by
  refine ⟨?_, ?_, ?_, ?_⟩
  · simp [onPeerDisconnect, hchat, Crypto.removePeerKey, mget_mdel_self]
  · simp [onPeerDisconnect, hchat, Crypto.removePeerKey, mget_mdel_self]
  · intro hnc hlen
    simp [onPeerDisconnect, hchat, hnc] at hlen ⊢
    simp [hlen]
  · intro hcr _
    constructor
    · intro e he
      simp [onPeerDisconnect, hchat, hcr] at he
      rcases he with he | he | he | he
      · subst he; rfl
      · subst he; rfl
      · subst he; rfl
      · rcases he with ⟨-, he⟩
        subst he; rfl
    · simp [onPeerDisconnect, hchat]

/-- C7 witness: a concrete non-creator joiner in `chat` losing its only
peer removes it and schedules the grace-delayed teardown. -/
theorem vapor_C7_disconnect_witness :
    sampleWorld.sess.state = SessState.chat ∧
    (mget (onPeerDisconnect sampleWorld "p1").1.sess.peers "p1" = none ∧
     mget (onPeerDisconnect sampleWorld "p1").1.store.peerKeys "p1" = none ∧
     (sampleWorld.sess.isCreator = false →
        (onPeerDisconnect sampleWorld "p1").1.sess.peers.length = 0 →
        Effect.scheduleDestroy 1500 ∈ (onPeerDisconnect sampleWorld "p1").2) ∧
     (sampleWorld.sess.isCreator = true → sampleWorld.sess.entryOpen = true →
        (∀ e ∈ (onPeerDisconnect sampleWorld "p1").2, isScheduleDestroy e = false) ∧
        (onPeerDisconnect sampleWorld "p1").1.sess.state = SessState.chat)) :=
  ⟨rfl, vapor_C7_disconnect sampleWorld "p1" rfl⟩

/-- C8: a received `ping` is echoed as a `pong` carrying the original
timestamp with no state change; a `pong` matching the (positive) pending
timestamp for its sender reports the RTT and removes the pending entry, so
a duplicate pong reports nothing; a pong with no pending entry or a
mismatched timestamp is silently dropped with no state change. -/
theorem vapor_C8_ping_pong (o : Oracles) (w : World) (ts : Nat) (peerId : String) :
    onData o w (WireMsg.ping ts) peerId
      = (w, [Effect.netSendTo peerId (WireMsg.pong ts)]) ∧
    (∀ pingTs, mget w.sess.pendingPings peerId = some pingTs → 0 < pingTs →
      ts = pingTs →
      (handlePong o w ts peerId).1.sess.pendingPings
          = mdel w.sess.pendingPings peerId ∧
      mget (handlePong o w ts peerId).1.sess.pendingPings peerId = none ∧
      (handlePong o w ts peerId).2
          = [Effect.uiAppend "system"
              ("Pong from " ++ pongName w peerId ++ ": "
                ++ toString (o.now - pingTs) ++ "ms RTT")] ∧
      handlePong o (handlePong o w ts peerId).1 ts peerId
          = ((handlePong o w ts peerId).1, [])) ∧
    (mget w.sess.pendingPings peerId = none → handlePong o w ts peerId = (w, [])) ∧
    (∀ pingTs, mget w.sess.pendingPings peerId = some pingTs → ts ≠ pingTs →
      handlePong o w ts peerId = (w, [])) := by
  refine ⟨by simp [onData], ?_, ?_, ?_⟩
  · intro pingTs hget hpos hts
    have hne : pingTs ≠ 0 := Nat.pos_iff_ne_zero.mp hpos
    have hstep : handlePong o w ts peerId =
        ({ w with sess :=
            { w.sess with pendingPings := mdel w.sess.pendingPings peerId } },
         [Effect.uiAppend "system"
            ("Pong from " ++ pongName w peerId ++ ": "
              ++ toString (o.now - pingTs) ++ "ms RTT")]) := by
      simp [handlePong, hget, hne, hts]
    refine ⟨by rw [hstep], ?_, by rw [hstep], ?_⟩
    · rw [hstep]
      exact mget_mdel_self _ _
    · rw [hstep]
      have h2 : mget (mdel w.sess.pendingPings peerId) peerId = none :=
        mget_mdel_self _ _
      simp [handlePong, h2]
  · intro hget
    simp [handlePong, hget]
  · intro pingTs hget hts
    simp [handlePong, hget, hts]

/-- C8 witness: on a concrete session, a `ping` is echoed; the matching
`pong` for the pending timestamp 42 reports and clears the entry, and a
second identical `pong` does nothing. -/
theorem vapor_C8_ping_pong_witness :
    onData sampleOracles sampleWorld (WireMsg.ping 7) "p1"
      = (sampleWorld, [Effect.netSendTo "p1" (WireMsg.pong 7)]) ∧
    ((handlePong sampleOracles sampleWorld 42 "p1").1.sess.pendingPings
        = mdel sampleWorld.sess.pendingPings "p1" ∧
     mget (handlePong sampleOracles sampleWorld 42 "p1").1.sess.pendingPings "p1" = none ∧
     (handlePong sampleOracles sampleWorld 42 "p1").2
        = [Effect.uiAppend "system"
            ("Pong from " ++ pongName sampleWorld "p1" ++ ": "
              ++ toString (sampleOracles.now - 42) ++ "ms RTT")] ∧
     handlePong sampleOracles (handlePong sampleOracles sampleWorld 42 "p1").1 42 "p1"
        = ((handlePong sampleOracles sampleWorld 42 "p1").1, [])) :=
  ⟨(vapor_C8_ping_pong sampleOracles sampleWorld 7 "p1").1,
   (vapor_C8_ping_pong sampleOracles sampleWorld 42 "p1").2.1 42 (by decide)
     (by decide) rfl⟩

/-- C9: sending on a channel that is not open silently drops the message:
the legacy `send` transmits nothing and leaves its state untouched when the
connection is absent or closed; likewise the mesh registry's `sendTo` for a
missing or closed target channel, and `broadcast` never mutates the
registry and only transmits over channels that exist, are open and are not
the excluded peer. -/
theorem vapor_C9_silent_drop (n : Net.NetState) (r : Net.Registry) (d : WireMsg)
    (peerId : String) (exclude : Option String)
    (hn : ∀ c, n.conn = some c → c.isOpen = false)
    (ht : ∀ c, mget r.chans peerId = some c → c.isOpen = false) :
    Net.send n d = (n, []) ∧
    Net.sendTo r peerId d = (r, []) ∧
    (Net.broadcast r d exclude).1 = r ∧
    (∀ pm ∈ (Net.broadcast r d exclude).2,
      ∃ c, (pm.1, c) ∈ r.chans ∧ c.isOpen = true ∧ some pm.1 ≠ exclude) := by
  refine ⟨?_, ?_, rfl, ?_⟩
  · match hc : n.conn with
    | none => simp [Net.send, hc]
    | some c => simp [Net.send, hc, hn c hc]
  · match hc : mget r.chans peerId with
    | none => simp [Net.sendTo, hc]
    | some c => simp [Net.sendTo, hc, ht c hc]
  · intro pm hpm
    simp only [Net.broadcast, List.mem_filterMap] at hpm
    obtain ⟨pc, hpc, hf⟩ := hpm
    by_cases hcond : some pc.1 ≠ exclude ∧ pc.2.isOpen = true
    · rw [if_pos hcond] at hf
      cases hf
      exact ⟨pc.2, by simpa using hpc, hcond.2, hcond.1⟩
    · rw [if_neg hcond] at hf
      simp at hf

/-- C9 witness: a closed legacy connection and a registry whose only
channel to `"p1"` is closed drop everything silently. -/
theorem vapor_C9_silent_drop_witness :
    Net.send ⟨some ⟨false⟩⟩ WireMsg.close = (⟨some ⟨false⟩⟩, []) ∧
    Net.sendTo ⟨[("p1", ⟨false⟩)]⟩ "p1" WireMsg.close = (⟨[("p1", ⟨false⟩)]⟩, []) ∧
    (Net.broadcast ⟨[("p1", ⟨false⟩)]⟩ WireMsg.close none).1 = ⟨[("p1", ⟨false⟩)]⟩ ∧
    (∀ pm ∈ (Net.broadcast ⟨[("p1", ⟨false⟩)]⟩ WireMsg.close none).2,
      ∃ c, (pm.1, c) ∈ (⟨[("p1", ⟨false⟩)]⟩ : Net.Registry).chans ∧
        c.isOpen = true ∧ some pm.1 ≠ none) :=
  vapor_C9_silent_drop ⟨some ⟨false⟩⟩ ⟨[("p1", ⟨false⟩)]⟩ WireMsg.close "p1" none
    (fun c hc => by cases hc; rfl) (fun c hc => by cases hc; rfl)

/-- Invariant of the `joinChannel` promise machine: an unsettled promise is
still pending, and a resolved one saw the data channel open and already
sent the joiner's own `key_exchange`. -/
def JoinInv (s : Join.St) : Prop :=
  (s.settled = false → s.outcome = Join.Outcome.pending) ∧
  (s.outcome = Join.Outcome.resolved → s.opened = true ∧ s.sentKX = true)

theorem joinInv_step (s : Join.St) (e : Join.Ev) (h : JoinInv s) :
    JoinInv (Join.step s e) := by
  obtain ⟨h1, h2⟩ := h
  cases e with
  | peerOpen =>
    exact ⟨fun hs => h1 hs, fun ho => ⟨rfl, (h2 ho).2⟩⟩
  | connOpen =>
    by_cases hc : (s.opened && !s.settled) = true
    · have hc' : s.opened = true ∧ s.settled = false := by simpa using hc
      constructor
      · intro hs
        simp [Join.step, hc'.1, hc'.2] at hs
      · intro _
        simp [Join.step, hc'.1, hc'.2]
    · have hstep : Join.step s Join.Ev.connOpen = s := by simp [Join.step, hc]
      rw [hstep]
      exact ⟨h1, h2⟩
  | connErr t =>
    by_cases hc : (s.opened && !s.settled) = true
    · have hc' : s.opened = true ∧ s.settled = false := by simpa using hc
      constructor
      · intro hs
        simp [Join.step, hc'.1, hc'.2] at hs
      · intro ho
        simp [Join.step, hc'.1, hc'.2] at ho
    · have hstep : Join.step s (Join.Ev.connErr t) = s := by simp [Join.step, hc]
      rw [hstep]
      exact ⟨h1, h2⟩
  | peerErr t =>
    by_cases hc : (!s.settled) = true
    · have hc' : s.settled = false := by simpa using hc
      constructor
      · intro hs
        simp [Join.step, hc'] at hs
      · intro ho
        simp [Join.step, hc'] at ho
    · have hstep : Join.step s (Join.Ev.peerErr t) = s := by simp [Join.step, hc]
      rw [hstep]
      exact ⟨h1, h2⟩
  | timeoutFire =>
    by_cases hc : (!s.settled) = true
    · have hc' : s.settled = false := by simpa using hc
      constructor
      · intro hs
        simp [Join.step, hc'] at hs
      · intro ho
        simp [Join.step, hc'] at ho
    · have hstep : Join.step s Join.Ev.timeoutFire = s := by simp [Join.step, hc]
      rw [hstep]
      exact ⟨h1, h2⟩
  | recvKX =>
    by_cases hc : s.outcome = Join.Outcome.resolved
    · constructor
      · intro hs
        have hs' : s.settled = false := by simpa [Join.step, hc] using hs
        have hp := h1 hs'
        rw [hc] at hp
        simp at hp
      · intro _
        have hok := h2 hc
        simp [Join.step, hc, hok.1, hok.2]
    · have hstep : Join.step s Join.Ev.recvKX = s := by simp [Join.step, hc]
      rw [hstep]
      exact ⟨h1, h2⟩

theorem joinInv_foldl (evs : List Join.Ev) :
    ∀ s : Join.St, JoinInv s → JoinInv (evs.foldl Join.step s) := by
  induction evs with
  | nil => exact fun s h => h
  | cons e rest ih => exact fun s h => ih (Join.step s e) (joinInv_step s e h)

theorem joinInv_run (evs : List Join.Ev) : JoinInv (Join.run evs) :=
  joinInv_foldl evs Join.init ⟨fun _ => rfl, fun ho => by cases ho⟩

/-- Once the promise has settled, no further event changes its outcome. -/
theorem join_step_settled (s : Join.St) (e : Join.Ev) (h : s.settled = true) :
    (Join.step s e).outcome = s.outcome := by
  cases e with
  | peerOpen => rfl
  | connOpen => simp [Join.step, h]
  | connErr t => simp [Join.step, h]
  | peerErr t => simp [Join.step, h]
  | timeoutFire => simp [Join.step, h]
  | recvKX =>
    by_cases hc : s.outcome = Join.Outcome.resolved <;> simp [Join.step, hc]

/-- C2 counterexample: running the joiner against the event trace
"signaling open, then data channel open" — with no reciprocal
`key_exchange` ever received — already resolves the `joinChannel` promise.
The claim that the join operation "never resolves on connection-open
alone" is therefore false of the code. -/
theorem vapor_C2_cex :
    (Join.run [Join.Ev.peerOpen, Join.Ev.connOpen]).outcome
        = Join.Outcome.resolved ∧
    (Join.run [Join.Ev.peerOpen, Join.Ev.connOpen]).recvKXCount = 0 :=
  ⟨rfl, rfl⟩

/-- C2 (amended): `joinChannel` settles at most once; it resolves exactly
upon the data channel opening (at which point the joiner's own
`key_exchange` has been sent, but no reciprocal exchange is awaited —
the transition to `chat` is what awaits it), and any rejection carries an
error classified into exactly one of peer-unavailable, request-timeout, or
a generic network failure. -/
theorem vapor_C2_join_settles (evs : List Join.Ev) :
    ((Join.run evs).outcome = Join.Outcome.resolved →
      (Join.run evs).opened = true ∧ (Join.run evs).sentKX = true) ∧
    ((Join.run evs).settled = true →
      ∀ e, (Join.step (Join.run evs) e).outcome = (Join.run evs).outcome) ∧
    ((Join.run evs).settled = false →
      (Join.run evs).outcome = Join.Outcome.pending) ∧
    (∀ t, (Join.run evs).outcome = Join.Outcome.rejected t →
      (Join.run evs).settled = true ∧
      (Join.classifyJoinError t = Join.ErrCat.peerUnavailable ∨
       Join.classifyJoinError t = Join.ErrCat.requestTimeout ∨
       Join.classifyJoinError t = Join.ErrCat.networkOther)) := by
  obtain ⟨h1, h2⟩ := joinInv_run evs
  refine ⟨h2, fun hs e => join_step_settled _ e hs, h1, ?_⟩
  intro t ht
  constructor
  · by_contra hns
    have : (Join.run evs).settled = false := by
      cases hsv : (Join.run evs).settled
      · rfl
      · exact absurd hsv hns
    rw [h1 this] at ht
    cases ht
  · unfold Join.classifyJoinError
    by_cases hpu : t = "peer-unavailable"
    · exact Or.inl (by simp [hpu])
    · by_cases hrt : t = "request-timeout"
      · exact Or.inr (Or.inl (by simp [hpu, hrt]))
      · exact Or.inr (Or.inr (by simp [hpu, hrt]))

/-- C2 witness: on the trace "signaling open, channel open, one reciprocal
`key_exchange`", the resolved promise indeed saw the channel open and its
own `key_exchange` sent. -/
theorem vapor_C2_join_settles_witness :
    (Join.run [Join.Ev.peerOpen, Join.Ev.connOpen, Join.Ev.recvKX]).opened = true ∧
    (Join.run [Join.Ev.peerOpen, Join.Ev.connOpen, Join.Ev.recvKX]).sentKX = true :=
  (vapor_C2_join_settles [Join.Ev.peerOpen, Join.Ev.connOpen, Join.Ev.recvKX]).1 rfl

/-- C3 counterexample: in the legacy 1:1 variant (src/js/crypto.js), a
ciphertext that decrypts successfully to `"hello"` but whose signature
fails verification makes `decryptMessage` throw instead of returning the
plaintext, so its caller reports a decryption failure and never renders the
message.  The claim that `decryptMessage` "never raises an error" in this
situation is therefore false of that cited code. -/
theorem vapor_C3_cex :
    LegacyCrypto.decryptMessage (DecResult.ok "hello" [SigCheck.invalid])
      = Except.error "Signature verification failed" := rfl

/-- C3 (amended): in the mesh variant, a ciphertext that decrypts
successfully but whose signature fails verification (or carries no
verifiable signature) still yields the plaintext with `verified = false`
and never an error, and `handleChatMessage` renders it flagged as
unverified together with a tamper warning rather than dropping it; the
legacy variant's `decryptMessage` instead raises
`"Signature verification failed"`. -/
theorem vapor_C3_decrypt_verify (o : Oracles) (w : World) (payload : String)
    (senderPeerId : Option String) (peerId : String) (txt : String)
    (sigs : List SigCheck)
    (hdec : o.dec payload (resolveSender peerId senderPeerId)
      = DecResult.ok txt sigs)
    (hsig : sigs.head? ≠ some SigCheck.valid) :
    Crypto.decryptMessage (DecResult.ok txt sigs) = Except.ok (txt, false) ∧
    handleChatMessage o w payload senderPeerId peerId =
      (w, [Effect.uiAppendPeerMsg txt
            (senderName w (resolveSender peerId senderPeerId)) true,
           Effect.uiAppend "error" chatTamperWarning]) ∧
    LegacyCrypto.decryptMessage (DecResult.ok txt sigs)
      = Except.error "Signature verification failed" := by
  have hkey : Crypto.decryptMessage (DecResult.ok txt sigs) = Except.ok (txt, false) := by
    cases sigs with
    | nil => rfl
    | cons s rest =>
      cases s with
      | valid => exact absurd rfl hsig
      | invalid => simp [Crypto.decryptMessage]
  refine ⟨hkey, ?_, ?_⟩
  · simp [handleChatMessage, hdec, hkey]
  · cases sigs with
    | nil => rfl
    | cons s rest =>
      cases s with
      | valid => exact absurd rfl hsig
      | invalid => simp [LegacyCrypto.decryptMessage]

/-- C3 witness: with a collaborator outcome "plaintext `hi`, one invalid
signature", the concrete chat handler renders the message as unverified and
appends the tamper warning. -/
theorem vapor_C3_decrypt_verify_witness :
    handleChatMessage ⟨fun _ _ => DecResult.ok "hi" [SigCheck.invalid],
        fun _ => none, 0⟩ sampleWorld "payload" none "p1" =
      (sampleWorld,
       [Effect.uiAppendPeerMsg "hi" (senderName sampleWorld (resolveSender "p1" none)) true,
        Effect.uiAppend "error" chatTamperWarning]) :=
  (vapor_C3_decrypt_verify ⟨fun _ _ => DecResult.ok "hi" [SigCheck.invalid],
      fun _ => none, 0⟩ sampleWorld "payload" none "p1" "hi" [SigCheck.invalid]
    rfl (by decide)).2.1

/-- A received `file` payload whose `fileSize` is one byte over the 2 MiB
ceiling but whose other fields are valid. -/
def oneOverFile : FileMeta :=
  { fileName := some "report.pdf", mimeType := some "application/pdf",
    fileSize := (MAX_FILE_SIZE : Int) + 1, data := some "AAAA" }

/-- C4 counterexample: the receive-side validation accepts a payload whose
`fileSize` field is one byte over the 2 MiB ceiling — `fileSize` is never
consulted by `handleFileMessage`, which contradicts the claim that such a
payload is rejected with a `FileRejected` reason. -/
theorem vapor_C4_cex :
    validateFileMeta oneOverFile = FileVerdict.accepted ∧
    oneOverFile.fileSize = (MAX_FILE_SIZE : Int) + 1 := by
  exact ⟨by decide, rfl⟩

/-- C4 (amended): receive-side acceptance of a `file` payload depends only
on `data` and `fileName` — `data` non-empty with length within
`1.37 × MAX_FILE_SIZE`, `fileName` non-empty and at most 255 characters —
and is entirely independent of the `fileSize` field; the 2 MiB ceiling on
the raw size is enforced only by the sender's pre-check, which accepts a
file of exactly the ceiling and rejects one byte over. -/
theorem vapor_C4_file_validation (m : FileMeta) (d n : String)
    (hd : m.data = some d) (hn : m.fileName = some n) :
    (∀ sz : Int, validateFileMeta { m with fileSize := sz } = validateFileMeta m) ∧
    (validateFileMeta m = FileVerdict.accepted ↔
      (0 < d.length ∧ 100 * d.length ≤ 137 * MAX_FILE_SIZE ∧
       0 < n.length ∧ n.length ≤ 255)) ∧
    sendFileTooLarge MAX_FILE_SIZE = false ∧
    sendFileTooLarge (MAX_FILE_SIZE + 1) = true := by
  refine ⟨fun sz => rfl, ?_, by decide, by decide⟩
  simp only [validateFileMeta, hd, hn]
  by_cases h1 : d.length = 0
  · simp [h1]
  · by_cases h2 : 100 * d.length > 137 * MAX_FILE_SIZE
    · simp [h1, h2]
    · by_cases h3 : n.length = 0 ∨ n.length > 255
      · simp [h1, h2, h3]
        omega
      · simp [h1, h2, h3]
        push_neg at h3
        omega

/-- C4 witness: a payload with 4 data characters and a short name is
accepted independently of its `fileSize` field, and its acceptance matches
the characterization. -/
theorem vapor_C4_file_validation_witness :
    (∀ sz : Int, validateFileMeta { oneOverFile with fileSize := sz }
        = validateFileMeta oneOverFile) ∧
    (validateFileMeta oneOverFile = FileVerdict.accepted ↔
      (0 < ("AAAA" : String).length ∧
       100 * ("AAAA" : String).length ≤ 137 * MAX_FILE_SIZE ∧
       0 < ("report.pdf" : String).length ∧
       ("report.pdf" : String).length ≤ 255)) ∧
    sendFileTooLarge MAX_FILE_SIZE = false ∧
    sendFileTooLarge (MAX_FILE_SIZE + 1) = true :=
  vapor_C4_file_validation oneOverFile "AAAA" "report.pdf" rfl rfl

end VC
